import Mathlib

/-!
Shallow embedding of the per-camera detection-to-alert pipeline of the
kbs_qc_ai_camera repository: the helmet app (src/web_helmet_app.py), the
truck + plate OCR app (src/web_truck_plat_ocr_app.py) and the plate-only
app (src/web_plate_only_app.py). Timestamps (Python time.time()) are
modelled as rationals; detector outputs are inputs to the per-frame step.
-/

/-- PASS_SEC of web_helmet_app.py (seconds the PASS window stays active). -/
def PASS_SEC : ℚ := 2

/-- FAIL_SEC of web_helmet_app.py (seconds the FAIL window stays active). -/
def FAIL_SEC : ℚ := 2

/-- SNAPSHOT_INTERVAL_OPTIONS of web_helmet_app.py. -/
def SNAPSHOT_INTERVAL_OPTIONS : List Int := [10, 30, 60]

/-- DEFAULT_SNAPSHOT_INTERVAL of web_helmet_app.py. -/
def DEFAULT_SNAPSHOT_INTERVAL : Int := 30

/-- Whether a pass/fail timer (web_helmet_app.py lines 739/741) is inside its
window: the timer is set and now - ts <= window. -/
def tsActive (ts : Option ℚ) (now window : ℚ) : Bool :=
  match ts with
  | some t => decide (now - t ≤ window)
  | none => false

/-- The ternary pass/fail value reported in last_status["pass_fail"] of
web_helmet_app.py ("pass" / "fail" / "none"). -/
inductive PassFail where
  | pass
  | fail
  | nothing
deriving DecidableEq, Repr

/-- The status record the helmet app exposes for web polling
(last_status of web_helmet_app.py). -/
structure HelmetStatus where
  pass_fail : PassFail
  text : String
  helmet_count : Nat
  no_helmet_count : Nat
  total_helmet_count : Nat
  total_no_helmet_count : Nat
deriving DecidableEq, Repr

/-- The per-camera mutable state of web_helmet_app.py: the state/send_config
dicts, the pass/fail timers, the snapshot rate-limit timer, whether a frame
has been captured (last_frame_for_snapshot is not None), the held-over
per-frame counts and the session totals, plus the polled status record. -/
structure HelmetState where
  detect_enabled : Bool
  snapshot_interval_sec : Int
  send_mode : String
  last_pass_ts : Option ℚ
  last_fail_ts : Option ℚ
  last_snapshot_ts : ℚ
  has_frame : Bool
  last_helmet_count : Nat
  last_no_helmet_count : Nat
  total_helmet_count : Nat
  total_no_helmet_count : Nat
  status : HelmetStatus
deriving DecidableEq, Repr

/-- One frame's external inputs to generate_frames of web_helmet_app.py:
whether this is a frame on which YOLO is scheduled (frame_idx % RUN_EVERY_N
== 0), the per-class box counts that survive the BOX_CONF_FILTER, the
current time, and whether cv2.imwrite would succeed if a snapshot is
attempted. -/
structure FrameInput where
  ranSchedule : Bool
  helmetBoxes : Nat
  noHelmetBoxes : Nat
  personBoxes : Nat
  now : ℚ
  persistOk : Bool
deriving DecidableEq, Repr

/-- A call to save_snapshot: whether the image write succeeded and whether
the call asked for Telegram forwarding (send_to_telegram). The actual send
happens only when the write succeeded (save_snapshot sends inside its
`if ok:` branch). -/
structure SnapshotEvent where
  persisted : Bool
  sendRequested : Bool
deriving DecidableEq, Repr

/-- Whether a SnapshotEvent actually forwards to Telegram: save_snapshot of
web_helmet_app.py only calls send_telegram_photo when cv2.imwrite returned
ok and send_to_telegram was set. -/
def SnapshotEvent.forwarded (e : SnapshotEvent) : Bool :=
  e.persisted && e.sendRequested

/-- detection_ran of web_helmet_app.py line 648: detection is enabled and
YOLO is scheduled for this frame. -/
def detectionRan (s : HelmetState) (f : FrameInput) : Bool :=
  s.detect_enabled && f.ranSchedule

/-- any_no_helmet_box (line 685): detection ran and at least one no-helmet
box passed the confidence filter. -/
def anyNoHelmetBox (s : HelmetState) (f : FrameInput) : Bool :=
  detectionRan s f && decide (0 < f.noHelmetBoxes)

/-- any_helmet_box (line 686). -/
def anyHelmetBox (s : HelmetState) (f : FrameInput) : Bool :=
  detectionRan s f && decide (0 < f.helmetBoxes)

/-- any_person_box (line 687). -/
def anyPersonBox (s : HelmetState) (f : FrameInput) : Bool :=
  detectionRan s f && decide (0 < f.personBoxes)

/-- inferred_no_helmet (lines 689-692): a person is seen but no helmet and
no no-helmet box. -/
def inferredNoHelmet (s : HelmetState) (f : FrameInput) : Bool :=
  detectionRan s f && (anyPersonBox s f && !anyHelmetBox s f && !anyNoHelmetBox s f)

/-- frame_no_helmet_count after the inferred bump (lines 695-696): when a
no-helmet is inferred and the explicit count is zero it becomes 1. Zero on
frames where detection did not run. -/
def frameNoHelmetCount (s : HelmetState) (f : FrameInput) : Nat :=
  if detectionRan s f then
    (if inferredNoHelmet s f && f.noHelmetBoxes == 0 then 1 else f.noHelmetBoxes)
  else 0

/-- The auto-alert trigger (line 716): an explicit or inferred no-helmet
detection on this frame. -/
def helmetTrigger (s : HelmetState) (f : FrameInput) : Bool :=
  anyNoHelmetBox s f || inferredNoHelmet s f

/-- Whether the auto snapshot fires (lines 716 and 721): the trigger holds
(which requires detection enabled) and the rate limiter has expired
(now - last_snapshot_ts > snapshot_interval_sec). -/
def snapshotFires (s : HelmetState) (f : FrameInput) : Bool :=
  s.detect_enabled && helmetTrigger s f
    && decide ((s.snapshot_interval_sec : ℚ) < f.now - s.last_snapshot_ts)

/-- One iteration of the while-loop body of generate_frames in
web_helmet_app.py (lines 629-775) on a successfully read frame: YOLO
counting, the inferred-no-helmet rule, held-over display counts, session
totals, the pass/fail timers, the rate-limited auto snapshot and the
last_status record. Returns the new state and the auto-snapshot call made
on this frame, if any. -/
def processFrame (s : HelmetState) (f : FrameInput) : HelmetState × Option SnapshotEvent :=
  let ran := detectionRan s f
  let fnh := frameNoHelmetCount s f
  let helmet_count := if ran then f.helmetBoxes else s.last_helmet_count
  let no_helmet_count := if ran then fnh else s.last_no_helmet_count
  let tot_h := if ran then s.total_helmet_count + f.helmetBoxes else s.total_helmet_count
  let tot_nh := if ran then s.total_no_helmet_count + fnh else s.total_no_helmet_count
  let trigger := helmetTrigger s f
  let fires := snapshotFires s f
  let lp := if s.detect_enabled && !trigger && anyHelmetBox s f then some f.now else s.last_pass_ts
  let lf := if s.detect_enabled && trigger then some f.now else s.last_fail_ts
  let lsnap := if fires then f.now else s.last_snapshot_ts
  let ev := if fires then some ⟨f.persistOk, s.send_mode == "auto"⟩ else none
  let text := if !s.detect_enabled then "DETECTION OFF"
              else if trigger then "NO HELMET (ALERT)"
              else if anyHelmetBox s f then "HELMET DETECTED"
              else "NO DETECTION"
  let pf := if s.detect_enabled && tsActive lf f.now FAIL_SEC then PassFail.fail
            else if s.detect_enabled && tsActive lp f.now PASS_SEC then PassFail.pass
            else PassFail.nothing
  ({ detect_enabled := s.detect_enabled
     snapshot_interval_sec := s.snapshot_interval_sec
     send_mode := s.send_mode
     last_pass_ts := lp
     last_fail_ts := lf
     last_snapshot_ts := lsnap
     has_frame := true
     last_helmet_count := if ran then f.helmetBoxes else s.last_helmet_count
     last_no_helmet_count := if ran then fnh else s.last_no_helmet_count
     total_helmet_count := tot_h
     total_no_helmet_count := tot_nh
     status := { pass_fail := pf
                 text := text
                 helmet_count := helmet_count
                 no_helmet_count := no_helmet_count
                 total_helmet_count := tot_h
                 total_no_helmet_count := tot_nh } }, ev)

/-- Folding the frame loop over a list of frames, keeping only the state. -/
def processFrames (s : HelmetState) (fs : List FrameInput) : HelmetState :=
  fs.foldl (fun s f => (processFrame s f).1) s

/-- Whether any frame of the list fires an auto snapshot, starting from
state s (the disjunction of the per-frame snapshot events). -/
def firesDuring (s : HelmetState) : List FrameInput → Bool
  | [] => false
  | f :: fs => (processFrame s f).2.isSome || firesDuring (processFrame s f).1 fs

/-- The /toggle_detection route of web_helmet_app.py (lines 537-557): flip
detect_enabled; when turning OFF, clear both timers and reset the polled
per-frame status (keeping session totals). -/
def toggleDetection (s : HelmetState) : HelmetState :=
  let newEnabled := !s.detect_enabled
  if newEnabled then
    { s with detect_enabled := true }
  else
    { s with detect_enabled := false
             last_pass_ts := none
             last_fail_ts := none
             status := { s.status with pass_fail := PassFail.nothing
                                       text := "DETECTION OFF"
                                       helmet_count := 0
                                       no_helmet_count := 0 } }

/-- A JSON value reaching set_snapshot_interval through request.get_json,
as seen by Python's int() coercion on line 564: a JSON integer; a JSON
float (int() truncates it toward zero); a string that int() parses as a
base-10 integer, carried here as the integer it parses to (e.g. "10"
as 10); or any value int() raises TypeError/ValueError on (a non-numeric
string, null, a list, ...). -/
inductive JsonValue where
  | int (n : Int)
  | float (q : ℚ)
  | intStr (n : Int)
  | bad
deriving DecidableEq, Repr

/-- Python int() applied to a JSON value (line 564): the identity on
integers, truncation toward zero on floats (int(10.5) = 10,
int(-10.5) = -10), the parsed value on integer-parsable strings, and an
exception — modelled as none, caught on lines 565-566 — otherwise. -/
def pyInt : JsonValue → Option Int
  | JsonValue.int n => some n
  | JsonValue.float q => some (q.num.tdiv q.den)
  | JsonValue.intStr n => some n
  | JsonValue.bad => none

/-- The interval normalization of /set_snapshot_interval (lines 560-573):
the request value is coerced with int() — a missing key takes the default
before the coercion, and a coercion failure falls back to the default —
and a coerced value outside SNAPSHOT_INTERVAL_OPTIONS falls back to the
default. A non-integer value whose coercion lands inside the option set
(such as the float 10.5 or the string "10", both coercing to 10) is kept
as that coerced member, not replaced by the default. -/
def normalizeSnapshotInterval (inp : Option JsonValue) : Int :=
  let sec := match inp with
             | some v => match pyInt v with
                         | some n => n
                         | none => DEFAULT_SNAPSHOT_INTERVAL
             | none => DEFAULT_SNAPSHOT_INTERVAL
  if sec ∈ SNAPSHOT_INTERVAL_OPTIONS then sec else DEFAULT_SNAPSHOT_INTERVAL

/-- The /set_snapshot_interval route: stores the normalized interval and
returns it to the caller. -/
def setSnapshotInterval (s : HelmetState) (inp : Option JsonValue) : HelmetState × Int :=
  let sec := normalizeSnapshotInterval inp
  ({ s with snapshot_interval_sec := sec }, sec)

/-- The mode normalization of /set_send_mode (lines 576-584): a missing
value falls back to "auto", as does anything other than "auto"/"manual". -/
def normalizeSendMode (inp : Option String) : String :=
  let mode := match inp with
              | some m => m
              | none => "auto"
  if mode == "auto" || mode == "manual" then mode else "auto"

/-- The /set_send_mode route: stores the normalized mode and returns it. -/
def setSendMode (s : HelmetState) (inp : Option String) : HelmetState × String :=
  let mode := normalizeSendMode inp
  ({ s with send_mode := mode }, mode)

/-- The /manual_snapshot route (lines 587-595): with no frame yet it
returns an error and does nothing; otherwise it saves the current frame
with send_to_telegram=True, touching no pipeline state (in particular not
last_snapshot_ts). -/
def manualSnapshot (s : HelmetState) (persistOk : Bool) : HelmetState × Option SnapshotEvent :=
  if s.has_frame then (s, some ⟨persistOk, true⟩) else (s, none)

/-- The per-camera mutable state of web_truck_plat_ocr_app.py relevant to
the pipeline: the state/send_config dicts, the snapshot rate-limit timer,
whether a frame has been captured, the held-over in-ROI truck count, the
accumulated truck-event counter and the previous frame's presence flag
(prev_any_truck). -/
structure TruckState where
  detect_enabled : Bool
  snapshot_interval_sec : Int
  send_mode : String
  last_snapshot_ts : ℚ
  has_frame : Bool
  last_truck_count : Nat
  total_truck_events : Nat
  prev_any_truck : Bool
deriving DecidableEq, Repr

/-- One frame's inputs to the truck-event accounting of
web_truck_plat_ocr_app.py (generate_frames lines 727-810): whether YOLO is
scheduled for this frame (frame_idx % RUN_EVERY_N == 0) and the number of
in-ROI truck detections it produced. -/
structure TruckFrameInput where
  ranSchedule : Bool
  frameTruckCount : Nat
deriving DecidableEq, Repr

/-- detection_ran of web_truck_plat_ocr_app.py (line 739-740). -/
def truckDetectionRan (s : TruckState) (f : TruckFrameInput) : Bool :=
  s.detect_enabled && f.ranSchedule

/-- any_truck (line 795): detection ran this frame and at least one in-ROI
truck box was found. -/
def anyTruck (s : TruckState) (f : TruckFrameInput) : Bool :=
  truckDetectionRan s f && decide (0 < f.frameTruckCount)

/-- The qualifying-presence flag of a frame as seen by a camera whose
detection is enabled: any_truck reduces to this when detect_enabled is
true. -/
def qualifyingPresence (f : TruckFrameInput) : Bool :=
  f.ranSchedule && decide (0 < f.frameTruckCount)

/-- The truck counting and accumulated-event block of generate_frames in
web_truck_plat_ocr_app.py (lines 795-810): hold over the displayed count on
frames where detection did not run; with detection enabled, bump
total_truck_events exactly on a rising edge of any_truck and record
prev_any_truck; with detection disabled, force prev_any_truck to False. -/
def truckCounterStep (s : TruckState) (f : TruckFrameInput) : TruckState :=
  let ran := truckDetectionRan s f
  let present := anyTruck s f
  let ltc := if ran then f.frameTruckCount else s.last_truck_count
  if s.detect_enabled then
    { s with last_truck_count := ltc
             total_truck_events :=
               if present && !s.prev_any_truck then s.total_truck_events + 1
               else s.total_truck_events
             prev_any_truck := present }
  else
    { s with last_truck_count := ltc
             prev_any_truck := false }

/-- Folding the truck-event block over a list of frames. -/
def truckCounterRun (s : TruckState) (fs : List TruckFrameInput) : TruckState :=
  fs.foldl truckCounterStep s

/-- The number of rising edges (false-to-true transitions) of a boolean
sequence, given the value preceding the sequence. -/
def risingEdges (prev : Bool) : List Bool → Nat
  | [] => 0
  | b :: bs => (if b && !prev then 1 else 0) + risingEdges b bs

/-- The /manual_snapshot route of web_truck_plat_ocr_app.py (lines
673-686): with no frame yet it returns an error and does nothing;
otherwise it saves the current frame with send_to_telegram=True, touching
no pipeline state. -/
def truckManualSnapshot (s : TruckState) (persistOk : Bool) :
    TruckState × Option SnapshotEvent :=
  if s.has_frame then (s, some ⟨persistOk, true⟩) else (s, none)

/-- A detection record as built by generate_frames of
web_truck_plat_ocr_app.py (lines 763-767 and 789-793): clamped box
corners, center point, ROI membership. -/
structure Det where
  x1 : Int
  y1 : Int
  x2 : Int
  y2 : Int
  cx : Int
  cy : Int
  in_roi : Bool
deriving DecidableEq, Repr

/-- The containment test of the association loop (line 817): the truck box
contains the plate's center point, with inclusive bounds. -/
def truckContainsPlateCenter (t p : Det) : Bool :=
  decide (t.x1 ≤ p.cx) && decide (p.cx ≤ t.x2)
    && decide (t.y1 ≤ p.cy) && decide (p.cy ≤ t.y2)

/-- The association of one plate with the truck list (lines 814-854): scan
the trucks in detection order and stop (break) at the first whose box
contains the plate's center; none when no truck contains it. -/
def associateTruck (p : Det) : List Det → Option Det
  | [] => none
  | t :: ts => if truckContainsPlateCenter t p then some t else associateTruck p ts

/-- The allow-list of the plate sanitizers: the character class
[0-9A-Za-z...] of web_plate_only_app.py line 128 and
web_truck_plat_ocr_app.py line 253, whose Thai ranges are the code points
U+0E01-U+0E2E and U+0E50-U+0E59 (everything outside is removed). -/
def allowedChar (c : Char) : Bool :=
  decide ((0x30 ≤ c.toNat ∧ c.toNat ≤ 0x39)
    ∨ (0x41 ≤ c.toNat ∧ c.toNat ≤ 0x5A)
    ∨ (0x61 ≤ c.toNat ∧ c.toNat ≤ 0x7A)
    ∨ (0xE01 ≤ c.toNat ∧ c.toNat ≤ 0xE2E)
    ∨ (0xE50 ≤ c.toNat ∧ c.toNat ≤ 0xE59))

/-- sanitize_plate of web_plate_only_app.py (lines 125-128): empty input
maps to "", otherwise every character outside the allow-list is removed. -/
def sanitize_plate (s : String) : String :=
  if s.isEmpty then "" else String.mk (s.data.filter allowedChar)

/-- A whitespace character removed by Python's str.strip() in
sanitize_plate_text; the ASCII ones are modelled (space, tab, newline,
carriage return, vertical tab, form feed). None of them is in the
allow-list, so the final filter removes any the strip might miss. -/
def isPyStripChar (c : Char) : Bool :=
  decide (c.toNat = 0x20 ∨ c.toNat = 0x9 ∨ c.toNat = 0xA
    ∨ c.toNat = 0xD ∨ c.toNat = 0xB ∨ c.toNat = 0xC)

/-- Python str.strip(): drop whitespace from both ends. -/
def pyStrip (l : List Char) : List Char :=
  ((l.dropWhile isPyStripChar).reverse.dropWhile isPyStripChar).reverse

/-- sanitize_plate_text of web_truck_plat_ocr_app.py (lines 249-255):
strip the ends, remove every space, return "" when nothing is left,
otherwise remove every character outside the allow-list. -/
def sanitize_plate_text (s : String) : String :=
  let t := String.mk ((pyStrip s.data).filter (fun c => !(c == ' ')))
  if t.isEmpty then "" else String.mk (t.data.filter allowedChar)

/-- The classification of a plate OCR result in web_plate_only_app.py. -/
inductive PlateOutcome where
  | valid (text : String)
  | broken
deriving DecidableEq, Repr

/-- The pure text pipeline of ocr_plate in web_plate_only_app.py (lines
130-146): an empty fragment list yields "", otherwise the fragments are
concatenated and sanitized. -/
def ocrJoin (fragments : List String) : String :=
  if fragments.isEmpty then "" else sanitize_plate (String.join fragments)

/-- The good/broken decision of generate_frames in web_plate_only_app.py
(lines 327-344): the OCR text is valid (counted as a good plate, with the
sanitized text as payload) when it is non-empty and at least 3 characters
long, broken otherwise. -/
def plateOutcome (fragments : List String) : PlateOutcome :=
  let text := ocrJoin fragments
  if !text.isEmpty && decide (3 ≤ text.length) then PlateOutcome.valid text
  else PlateOutcome.broken

/-! Projection lemmas for the helmet frame step: each field of the state
produced by processFrame, read off the structure literal. -/

theorem processFrame_snd (s : HelmetState) (f : FrameInput) :
    (processFrame s f).2
      = if snapshotFires s f then some ⟨f.persistOk, s.send_mode == "auto"⟩ else none := rfl

theorem processFrame_detect_enabled (s : HelmetState) (f : FrameInput) :
    ((processFrame s f).1).detect_enabled = s.detect_enabled := rfl

theorem processFrame_interval (s : HelmetState) (f : FrameInput) :
    ((processFrame s f).1).snapshot_interval_sec = s.snapshot_interval_sec := rfl

theorem processFrame_send_mode (s : HelmetState) (f : FrameInput) :
    ((processFrame s f).1).send_mode = s.send_mode := rfl

theorem processFrame_last_snapshot_ts (s : HelmetState) (f : FrameInput) :
    ((processFrame s f).1).last_snapshot_ts
      = if snapshotFires s f then f.now else s.last_snapshot_ts := rfl

theorem processFrame_last_pass_ts (s : HelmetState) (f : FrameInput) :
    ((processFrame s f).1).last_pass_ts
      = if s.detect_enabled && !helmetTrigger s f && anyHelmetBox s f
        then some f.now else s.last_pass_ts := rfl

theorem processFrame_last_fail_ts (s : HelmetState) (f : FrameInput) :
    ((processFrame s f).1).last_fail_ts
      = if s.detect_enabled && helmetTrigger s f then some f.now else s.last_fail_ts := rfl

theorem processFrame_pass_fail (s : HelmetState) (f : FrameInput) :
    ((processFrame s f).1).status.pass_fail
      = if s.detect_enabled
            && tsActive ((processFrame s f).1).last_fail_ts f.now FAIL_SEC then PassFail.fail
        else if s.detect_enabled
            && tsActive ((processFrame s f).1).last_pass_ts f.now PASS_SEC then PassFail.pass
        else PassFail.nothing := rfl

theorem processFrame_text (s : HelmetState) (f : FrameInput) :
    ((processFrame s f).1).status.text
      = if !s.detect_enabled then "DETECTION OFF"
        else if helmetTrigger s f then "NO HELMET (ALERT)"
        else if anyHelmetBox s f then "HELMET DETECTED"
        else "NO DETECTION" := rfl

theorem processFrame_status_counts (s : HelmetState) (f : FrameInput) :
    ((processFrame s f).1).status.helmet_count
        = (if detectionRan s f then f.helmetBoxes else s.last_helmet_count) ∧
    ((processFrame s f).1).status.no_helmet_count
        = (if detectionRan s f then frameNoHelmetCount s f else s.last_no_helmet_count) ∧
    ((processFrame s f).1).last_helmet_count
        = (if detectionRan s f then f.helmetBoxes else s.last_helmet_count) ∧
    ((processFrame s f).1).last_no_helmet_count
        = (if detectionRan s f then frameNoHelmetCount s f else s.last_no_helmet_count) :=
  ⟨rfl, rfl, rfl, rfl⟩

theorem processFrame_totals (s : HelmetState) (f : FrameInput) :
    ((processFrame s f).1).total_helmet_count
        = (if detectionRan s f then s.total_helmet_count + f.helmetBoxes
           else s.total_helmet_count) ∧
    ((processFrame s f).1).total_no_helmet_count
        = (if detectionRan s f then s.total_no_helmet_count + frameNoHelmetCount s f
           else s.total_no_helmet_count) :=
  ⟨rfl, rfl⟩

/-- Example helmet state used to instantiate theorems with hypotheses: a
camera in manual send mode that has already served a frame. -/
def exC4Helmet : HelmetState :=
  { detect_enabled := true
    snapshot_interval_sec := 30
    send_mode := "manual"
    last_pass_ts := none
    last_fail_ts := none
    last_snapshot_ts := 0
    has_frame := true
    last_helmet_count := 0
    last_no_helmet_count := 0
    total_helmet_count := 0
    total_no_helmet_count := 0
    status := ⟨PassFail.nothing, "NO DETECTION", 0, 0, 0, 0⟩ }

/-- Example truck-camera state, also in manual send mode with a frame. -/
def exC4Truck : TruckState :=
  { detect_enabled := true
    snapshot_interval_sec := 10
    send_mode := "manual"
    last_snapshot_ts := 0
    has_frame := true
    last_truck_count := 0
    total_truck_events := 0
    prev_any_truck := false }

/-- C4: in both apps the explicit /manual_snapshot operation, whenever a
frame is available, saves the current frame with send_to_telegram=True —
forwarding regardless of the camera's send mode, checking neither the
auto-trigger condition nor the rate limiter — and leaves the whole camera
state (in particular last_snapshot_ts) unchanged; the Telegram send itself
happens exactly when the image write succeeds. -/
theorem manual_snapshot_bypasses_gates (s : HelmetState) (t : TruckState)
    (persistOk : Bool) (hs : s.has_frame = true) (ht : t.has_frame = true) :
    manualSnapshot s persistOk = (s, some ⟨persistOk, true⟩) ∧
    truckManualSnapshot t persistOk = (t, some ⟨persistOk, true⟩) ∧
    (SnapshotEvent.mk persistOk true).forwarded = persistOk := by
  refine ⟨?_, ?_, ?_⟩
  · simp [manualSnapshot, hs]
  · simp [truckManualSnapshot, ht]
  · simp [SnapshotEvent.forwarded]

/-- Witness for C4 at concrete manual-mode cameras with a persisted write. -/
theorem manual_snapshot_bypasses_gates_witness :
    manualSnapshot exC4Helmet true = (exC4Helmet, some ⟨true, true⟩) ∧
    truckManualSnapshot exC4Truck true = (exC4Truck, some ⟨true, true⟩) ∧
    (SnapshotEvent.mk true true).forwarded = true :=
  manual_snapshot_bypasses_gates exC4Helmet exC4Truck true rfl rfl

/-- C8: the helmet app's session totals (total_helmet_count /
total_no_helmet_count) are monotonically non-decreasing: each frame of the
pipeline loop either keeps them or adds that frame's counts, no operation
ever decrements them, the control operations (toggle detection, set
interval, set send mode, manual snapshot) leave them exactly unchanged,
and any number of detection toggles leaves them unchanged. -/
theorem session_totals_monotone :
    (∀ (s : HelmetState) (f : FrameInput),
      s.total_helmet_count ≤ ((processFrame s f).1).total_helmet_count ∧
      s.total_no_helmet_count ≤ ((processFrame s f).1).total_no_helmet_count) ∧
    (∀ (s : HelmetState) (fs : List FrameInput),
      s.total_helmet_count ≤ (processFrames s fs).total_helmet_count ∧
      s.total_no_helmet_count ≤ (processFrames s fs).total_no_helmet_count) ∧
    (∀ s : HelmetState,
      (toggleDetection s).total_helmet_count = s.total_helmet_count ∧
      (toggleDetection s).total_no_helmet_count = s.total_no_helmet_count) ∧
    (∀ (s : HelmetState) (n : Nat),
      (toggleDetection^[n] s).total_helmet_count = s.total_helmet_count ∧
      (toggleDetection^[n] s).total_no_helmet_count = s.total_no_helmet_count) ∧
    (∀ (s : HelmetState) (inp : Option JsonValue),
      ((setSnapshotInterval s inp).1).total_helmet_count = s.total_helmet_count ∧
      ((setSnapshotInterval s inp).1).total_no_helmet_count = s.total_no_helmet_count) ∧
    (∀ (s : HelmetState) (inp : Option String),
      ((setSendMode s inp).1).total_helmet_count = s.total_helmet_count ∧
      ((setSendMode s inp).1).total_no_helmet_count = s.total_no_helmet_count) ∧
    (∀ (s : HelmetState) (persistOk : Bool),
      ((manualSnapshot s persistOk).1).total_helmet_count = s.total_helmet_count ∧
      ((manualSnapshot s persistOk).1).total_no_helmet_count = s.total_no_helmet_count) := by
  have hstep : ∀ (s : HelmetState) (f : FrameInput),
      s.total_helmet_count ≤ ((processFrame s f).1).total_helmet_count ∧
      s.total_no_helmet_count ≤ ((processFrame s f).1).total_no_helmet_count := by
    intro s f
    rw [(processFrame_totals s f).1, (processFrame_totals s f).2]
    constructor <;> split <;> omega
  have htog : ∀ s : HelmetState,
      (toggleDetection s).total_helmet_count = s.total_helmet_count ∧
      (toggleDetection s).total_no_helmet_count = s.total_no_helmet_count := by
    intro s
    by_cases h : s.detect_enabled = true <;> simp [toggleDetection, h]
  refine ⟨hstep, ?_, htog, ?_, ?_, ?_, ?_⟩
  · intro s fs
    induction fs generalizing s with
    | nil => exact ⟨le_refl _, le_refl _⟩
    | cons f fs ih =>
      have h1 := hstep s f
      have h2 := ih (processFrame s f).1
      exact ⟨le_trans h1.1 h2.1, le_trans h1.2 h2.2⟩
  · intro s n
    induction n generalizing s with
    | zero => exact ⟨rfl, rfl⟩
    | succ n ih =>
      rw [Function.iterate_succ_apply]
      have h1 := htog s
      have h2 := ih (toggleDetection s)
      exact ⟨h1.1 ▸ h2.1, h1.2 ▸ h2.2⟩
  · intro s inp
    exact ⟨rfl, rfl⟩
  · intro s inp
    exact ⟨rfl, rfl⟩
  · intro s persistOk
    unfold manualSnapshot
    split <;> exact ⟨rfl, rfl⟩

/-- The rational 10.5, in the reduced num/den form Rat stores (21/2). -/
def ratTenPointFive : ℚ := Rat.mk' 21 2 (by decide) (by decide)

theorem ratTenPointFive_eq : ratTenPointFive = 10.5 := by
  rw [ratTenPointFive, Rat.mk'_eq_divInt, Rat.divInt_eq_div]
  norm_num

/-- Camera state for the C9 counterexample. -/
def exC9S : HelmetState :=
  { detect_enabled := true
    snapshot_interval_sec := 30
    send_mode := "auto"
    last_pass_ts := none
    last_fail_ts := none
    last_snapshot_ts := 0
    has_frame := true
    last_helmet_count := 0
    last_no_helmet_count := 0
    total_helmet_count := 0
    total_no_helmet_count := 0
    status := ⟨PassFail.nothing, "NO DETECTION", 0, 0, 0, 0⟩ }

/-- Counterexample for C9 as stated: the non-integer inputs 10.5 (a JSON
float) and "10" (a string) are outside the enumerated option set, yet
int() coerces both to 10, a member of the set, so /set_snapshot_interval
stores and returns 10 — not the configured default 30. -/
theorem snapshot_interval_coercion_counterexample :
    pyInt (JsonValue.float ratTenPointFive) = some 10 ∧
    (setSnapshotInterval exC9S (some (JsonValue.float ratTenPointFive))).2 = 10 ∧
    ((setSnapshotInterval exC9S
        (some (JsonValue.float ratTenPointFive))).1).snapshot_interval_sec = 10 ∧
    (setSnapshotInterval exC9S (some (JsonValue.intStr 10))).2 = 10 ∧
    (10 : Int) ≠ DEFAULT_SNAPSHOT_INTERVAL := by
  refine ⟨by decide, by decide, by decide, by decide, by decide⟩

/-- C9 (amended): /set_snapshot_interval first applies Python's int()
coercion to the request value; a missing value or one int() raises on
falls back to DEFAULT_SNAPSHOT_INTERVAL, as does a coerced value outside
SNAPSHOT_INTERVAL_OPTIONS — but a non-integer value that int() coerces
into the option set (such as 10.5 or "10") is stored and returned as that
coerced member, not the default. The stored interval always equals the
returned value and is always a member of the option set. /set_send_mode
normalizes anything other than "auto"/"manual" (or a missing value) to
"auto" and stores exactly the value it returns. Both operations are
total: they never reject the request. -/
theorem control_input_normalization :
    (∀ v : JsonValue, pyInt v = none →
      normalizeSnapshotInterval (some v) = DEFAULT_SNAPSHOT_INTERVAL) ∧
    normalizeSnapshotInterval none = DEFAULT_SNAPSHOT_INTERVAL ∧
    (∀ (v : JsonValue) (n : Int), pyInt v = some n → n ∉ SNAPSHOT_INTERVAL_OPTIONS →
      normalizeSnapshotInterval (some v) = DEFAULT_SNAPSHOT_INTERVAL) ∧
    (∀ (v : JsonValue) (n : Int), pyInt v = some n → n ∈ SNAPSHOT_INTERVAL_OPTIONS →
      normalizeSnapshotInterval (some v) = n) ∧
    (∀ inp, normalizeSnapshotInterval inp ∈ SNAPSHOT_INTERVAL_OPTIONS) ∧
    (∀ (s : HelmetState) (inp : Option JsonValue),
      (setSnapshotInterval s inp).1.snapshot_interval_sec = (setSnapshotInterval s inp).2 ∧
      (setSnapshotInterval s inp).2 = normalizeSnapshotInterval inp) ∧
    (∀ m : String, m ≠ "auto" → m ≠ "manual" → normalizeSendMode (some m) = "auto") ∧
    normalizeSendMode none = "auto" ∧
    (∀ (s : HelmetState) (inp : Option String),
      (setSendMode s inp).1.send_mode = (setSendMode s inp).2 ∧
      (setSendMode s inp).2 = normalizeSendMode inp) := by
  refine ⟨?_, ?_, ?_, ?_, ?_, ?_, ?_, ?_, ?_⟩
  · intro v hv
    simp [normalizeSnapshotInterval, hv]
  · rfl
  · intro v n hv hn
    simp [normalizeSnapshotInterval, hv, hn]
  · intro v n hv hn
    simp [normalizeSnapshotInterval, hv, hn]
  · intro inp
    rcases inp with - | v
    · decide
    · simp only [normalizeSnapshotInterval]
      rcases hv : pyInt v with - | n
      · decide
      · split
        · assumption
        · decide
  · intro s inp
    exact ⟨rfl, rfl⟩
  · intro m h1 h2
    simp [normalizeSendMode, h1, h2]
  · rfl
  · intro s inp
    exact ⟨rfl, rfl⟩

/-! Association lemmas (the plate-to-truck scan of
web_truck_plat_ocr_app.py, lines 814-854). -/

theorem associateTruck_none_iff (p : Det) (ts : List Det) :
    associateTruck p ts = none ↔ ∀ t ∈ ts, truckContainsPlateCenter t p = false := by
  induction ts with
  | nil => simp [associateTruck]
  | cons a ts ih =>
    by_cases h : truckContainsPlateCenter a p = true
    · simp [associateTruck, h]
    · simp [associateTruck, h, ih, Bool.eq_false_iff.mpr h]

theorem associateTruck_some_iff (p t : Det) (ts : List Det) :
    associateTruck p ts = some t ↔
      ∃ l₁ l₂, ts = l₁ ++ t :: l₂ ∧ truckContainsPlateCenter t p = true ∧
        ∀ u ∈ l₁, truckContainsPlateCenter u p = false := by
  induction ts with
  | nil =>
    constructor
    · intro h
      exact absurd h (by simp [associateTruck])
    · rintro ⟨l₁, l₂, h, -, -⟩
      exact absurd h (by simp)
  | cons a ts ih =>
    show (if truckContainsPlateCenter a p then some a else associateTruck p ts) = some t ↔ _
    by_cases h : truckContainsPlateCenter a p = true
    · rw [if_pos h]
      constructor
      · intro he
        injection he with he
        subst he
        exact ⟨[], ts, rfl, h, by simp⟩
      · rintro ⟨l₁, l₂, hl, hc, hall⟩
        cases l₁ with
        | nil =>
          simp only [List.nil_append, List.cons.injEq] at hl
          rw [hl.1]
        | cons b l₁ =>
          simp only [List.cons_append, List.cons.injEq] at hl
          have hb := hall b (by simp)
          rw [hl.1, hb] at h
          exact absurd h (by simp)
    · rw [if_neg h]
      constructor
      · intro he
        obtain ⟨l₁, l₂, hl, hc, hall⟩ := ih.mp he
        refine ⟨a :: l₁, l₂, by rw [hl, List.cons_append], hc, ?_⟩
        intro u hu
        rcases List.mem_cons.mp hu with h1 | h2
        · rw [h1]
          exact Bool.eq_false_iff.mpr h
        · exact hall u h2
      · rintro ⟨l₁, l₂, hl, hc, hall⟩
        cases l₁ with
        | nil =>
          simp only [List.nil_append, List.cons.injEq] at hl
          rw [hl.1] at h
          exact absurd hc h
        | cons b l₁ =>
          simp only [List.cons_append, List.cons.injEq] at hl
          exact ih.mpr ⟨l₁, l₂, hl.2, hc, fun u hu => hall u (List.mem_cons_of_mem _ hu)⟩

/-- C5: the association scan pairs a plate (secondary detection) with the
first truck (primary detection), in the order the detector produced them,
whose box contains the plate's center with inclusive bounds — the inner
loop breaks at that first containing truck, so every truck before it fails
the containment test and the trucks after it are never considered — and a
plate contained in no truck box yields no association. -/
theorem association_first_containing_truck :
    (∀ (p : Det) (ts : List Det),
      associateTruck p ts = none ↔ ∀ t ∈ ts, truckContainsPlateCenter t p = false) ∧
    (∀ (p t : Det) (ts : List Det),
      associateTruck p ts = some t ↔
        ∃ l₁ l₂, ts = l₁ ++ t :: l₂ ∧ truckContainsPlateCenter t p = true ∧
          ∀ u ∈ l₁, truckContainsPlateCenter u p = false) ∧
    (∀ (t p : Det),
      truckContainsPlateCenter t p = true ↔
        t.x1 ≤ p.cx ∧ p.cx ≤ t.x2 ∧ t.y1 ≤ p.cy ∧ p.cy ≤ t.y2) := by
  refine ⟨associateTruck_none_iff, associateTruck_some_iff, ?_⟩
  intro t p
  simp [truckContainsPlateCenter, and_assoc]

/-! Plate OCR text pipeline lemmas. -/

theorem ocrJoin_eq_sanitize (fragments : List String) :
    ocrJoin fragments = sanitize_plate (String.join fragments) := by
  cases fragments <;> rfl

theorem string_isEmpty_iff_length (s : String) : s.isEmpty = true ↔ s.length = 0 := by
  rw [String.isEmpty_iff]
  constructor
  · intro h
    subst h
    rfl
  · intro h
    obtain ⟨l⟩ := s
    have hl : l = [] := List.length_eq_zero.mp h
    subst hl
    rfl

theorem plateOutcome_eq (fragments : List String) :
    plateOutcome fragments =
      if 3 ≤ (sanitize_plate (String.join fragments)).length
      then PlateOutcome.valid (sanitize_plate (String.join fragments))
      else PlateOutcome.broken := by
  simp only [plateOutcome, ocrJoin_eq_sanitize]
  by_cases hlen : 3 ≤ (sanitize_plate (String.join fragments)).length
  · have hne : (sanitize_plate (String.join fragments)).isEmpty = false := by
      rw [Bool.eq_false_iff]
      intro hemp
      have := (string_isEmpty_iff_length _).mp hemp
      omega
    simp [hne, hlen]
  · simp [hlen]

/-- C6: in the plate-only app the recognizer's fragments are concatenated
and sanitized against the allow-list, and the frame decision classifies
the result as broken exactly when the sanitized text is shorter than 3
characters, and as a valid plate carrying exactly the sanitized text
otherwise; concretely, fragments ["A","B"] are broken and fragments
["AB","123"] are valid with payload "AB123". -/
theorem plate_ocr_outcome_spec :
    (∀ fragments : List String,
      ocrJoin fragments = sanitize_plate (String.join fragments) ∧
      (plateOutcome fragments = PlateOutcome.broken ↔
        (sanitize_plate (String.join fragments)).length < 3) ∧
      (∀ t, plateOutcome fragments = PlateOutcome.valid t ↔
        t = sanitize_plate (String.join fragments) ∧ 3 ≤ t.length)) ∧
    plateOutcome ["A", "B"] = PlateOutcome.broken ∧
    plateOutcome ["AB", "123"] = PlateOutcome.valid "AB123" := by
  refine ⟨?_, by decide, by decide⟩
  intro fragments
  refine ⟨ocrJoin_eq_sanitize fragments, ?_, ?_⟩
  · rw [plateOutcome_eq]
    split
    · rename_i h
      exact ⟨fun hx => absurd hx (by simp), fun hlt => absurd hlt (by omega)⟩
    · rename_i h
      exact ⟨fun _ => by omega, fun _ => rfl⟩
  · intro t
    rw [plateOutcome_eq]
    split
    · rename_i h
      constructor
      · intro hx
        injection hx with hx
        exact ⟨hx.symm, hx ▸ h⟩
      · rintro ⟨h1, h2⟩
        rw [h1]
    · rename_i h
      constructor
      · intro hx
        exact absurd hx (by simp)
      · rintro ⟨h1, h2⟩
        rw [h1] at h2
        exact absurd h2 h

/-! Sanitizer algebra: the allow-list filter of sanitize_plate
(web_plate_only_app.py) and sanitize_plate_text (web_truck_plat_ocr_app.py). -/

theorem allowed_ne_whitespace (c : Char) (h : allowedChar c = true) :
    c ≠ ' ' ∧ c ≠ '\t' ∧ c ≠ '\n' ∧ c ≠ '\r' := by
  refine ⟨?_, ?_, ?_, ?_⟩ <;> intro hc <;> subst hc <;> exact absurd h (by decide)

theorem allowed_not_strip (c : Char) (h : allowedChar c = true) :
    isPyStripChar c = false := by
  simp only [allowedChar, decide_eq_true_eq] at h
  simp only [isPyStripChar, decide_eq_false_iff_not]
  omega

theorem filter_allowed_dropWhile (l : List Char) :
    (l.dropWhile isPyStripChar).filter allowedChar = l.filter allowedChar := by
  induction l with
  | nil => rfl
  | cons a l ih =>
    by_cases ha : isPyStripChar a = true
    · have hna : allowedChar a = false := by
        cases hall : allowedChar a
        · rfl
        · rw [allowed_not_strip a hall] at ha
          exact absurd ha (by simp)
      rw [List.dropWhile_cons_of_pos ha, ih,
        List.filter_cons_of_neg (by simp [hna])]
    · rw [List.dropWhile_cons_of_neg ha]

theorem filter_allowed_pyStrip (l : List Char) :
    (pyStrip l).filter allowedChar = l.filter allowedChar := by
  unfold pyStrip
  rw [List.filter_reverse, filter_allowed_dropWhile, List.filter_reverse,
    filter_allowed_dropWhile, List.reverse_reverse]

theorem filter_allowed_nospace (l : List Char) :
    (l.filter (fun c => !(c == ' '))).filter allowedChar = l.filter allowedChar := by
  rw [List.filter_filter]
  apply List.filter_congr
  intro a ha
  cases hall : allowedChar a
  · simp
  · have hne := (allowed_ne_whitespace a hall).1
    simp [hne]

theorem sanitize_plate_data (s : String) :
    (sanitize_plate s).data = s.data.filter allowedChar := by
  unfold sanitize_plate
  by_cases h : s.isEmpty = true
  · rw [if_pos h]
    have h0 : s.data.length = 0 := (string_isEmpty_iff_length s).mp h
    rw [List.length_eq_zero.mp h0]
    rfl
  · rw [if_neg h]

theorem sanitize_plate_text_data (s : String) :
    (sanitize_plate_text s).data = s.data.filter allowedChar := by
  unfold sanitize_plate_text
  have key : ((pyStrip s.data).filter (fun c => !(c == ' '))).filter allowedChar
      = s.data.filter allowedChar := by
    rw [filter_allowed_nospace, filter_allowed_pyStrip]
  by_cases h : (String.mk ((pyStrip s.data).filter (fun c => !(c == ' ')))).isEmpty = true
  · rw [if_pos h]
    have h0 : ((pyStrip s.data).filter (fun c => !(c == ' '))).length = 0 :=
      (string_isEmpty_iff_length _).mp h
    have hnil := List.length_eq_zero.mp h0
    rw [hnil] at key
    rw [← key]
    rfl
  · rw [if_neg h]
    exact key

theorem sanitize_plate_text_eq (s : String) :
    sanitize_plate_text s = sanitize_plate s :=
  String.ext ((sanitize_plate_text_data s).trans (sanitize_plate_data s).symm)

/-- C10: both plate sanitizers are idempotent and their output is closed
over the allow-list: sanitize_plate (plate-only app) and
sanitize_plate_text (truck app) compute the same allow-list filter, so
applying either twice equals applying it once, every character of the
output is in the allow-list, and in particular the output contains no
whitespace (no space, tab, newline or carriage return). -/
theorem sanitize_idempotent_allowlist_closed :
    ∀ s : String,
      sanitize_plate (sanitize_plate s) = sanitize_plate s ∧
      sanitize_plate_text (sanitize_plate_text s) = sanitize_plate_text s ∧
      sanitize_plate_text s = sanitize_plate s ∧
      (∀ c ∈ (sanitize_plate s).data, allowedChar c = true) ∧
      (∀ c ∈ (sanitize_plate s).data,
        c ≠ ' ' ∧ c ≠ '\t' ∧ c ≠ '\n' ∧ c ≠ '\r') := by
  intro s
  have hidem : sanitize_plate (sanitize_plate s) = sanitize_plate s := by
    apply String.ext
    rw [sanitize_plate_data, sanitize_plate_data, List.filter_filter]
    apply List.filter_congr
    intro a ha
    cases hall : allowedChar a <;> simp
  have hclosed : ∀ c ∈ (sanitize_plate s).data, allowedChar c = true := by
    intro c hc
    rw [sanitize_plate_data] at hc
    exact (List.mem_filter.mp hc).2
  refine ⟨hidem, ?_, sanitize_plate_text_eq s, hclosed, ?_⟩
  · rw [sanitize_plate_text_eq, sanitize_plate_text_eq, hidem]
  · intro c hc
    exact allowed_ne_whitespace c (hclosed c hc)

/-! Truck event counter lemmas. -/

theorem truckCounterRun_cons (s : TruckState) (f : TruckFrameInput)
    (fs : List TruckFrameInput) :
    truckCounterRun s (f :: fs) = truckCounterRun (truckCounterStep s f) fs := rfl

theorem truckCounterStep_enabled (s : TruckState) (f : TruckFrameInput)
    (h : s.detect_enabled = true) :
    truckCounterStep s f =
      { s with last_truck_count :=
                 if f.ranSchedule then f.frameTruckCount else s.last_truck_count
               total_truck_events :=
                 if qualifyingPresence f && !s.prev_any_truck then s.total_truck_events + 1
                 else s.total_truck_events
               prev_any_truck := qualifyingPresence f } := by
  have h1 : truckDetectionRan s f = f.ranSchedule := by
    simp [truckDetectionRan, h]
  have h2 : anyTruck s f = qualifyingPresence f := by
    simp [anyTruck, truckDetectionRan, qualifyingPresence, h]
  unfold truckCounterStep
  rw [if_pos h, h1, h2]

/-- C1: with detection enabled, running the truck counting block of
generate_frames over any sequence of processed frames increases
total_truck_events by exactly the number of rising edges of the
qualifying-presence condition (detection ran this frame and found at least
one in-ROI truck) across consecutive processed frames — one increment per
false-to-true transition, none while the condition stays true. -/
theorem truck_event_counter_rising_edges (s : TruckState) (fs : List TruckFrameInput)
    (h : s.detect_enabled = true) :
    (truckCounterRun s fs).total_truck_events
      = s.total_truck_events + risingEdges s.prev_any_truck (fs.map qualifyingPresence) := by
  induction fs generalizing s with
  | nil => simp [truckCounterRun, risingEdges]
  | cons f fs ih =>
    rw [truckCounterRun_cons]
    have hstep := truckCounterStep_enabled s f h
    have hen : (truckCounterStep s f).detect_enabled = true := by
      rw [hstep]
      exact h
    rw [ih (truckCounterStep s f) hen, List.map_cons]
    rw [hstep]
    simp only [risingEdges]
    by_cases hq : (qualifyingPresence f && !s.prev_any_truck) = true
    · simp [hq]
      omega
    · simp [hq]

/-- Camera state for the C1 scenario: detection enabled, no prior
presence, zero events so far. -/
def exC1Start : TruckState :=
  { detect_enabled := true
    snapshot_interval_sec := 10
    send_mode := "auto"
    last_snapshot_ts := 0
    has_frame := true
    last_truck_count := 0
    total_truck_events := 0
    prev_any_truck := false }

/-- The C1 scenario frames: presence on frames 1-5, absent on frames 6-9,
present again on frame 10, detection scheduled on every frame. -/
def exC1Frames : List TruckFrameInput :=
  [⟨true, 1⟩, ⟨true, 1⟩, ⟨true, 1⟩, ⟨true, 1⟩, ⟨true, 1⟩,
   ⟨true, 0⟩, ⟨true, 0⟩, ⟨true, 0⟩, ⟨true, 0⟩, ⟨true, 1⟩]

/-- Witness for C1: the scenario of the spec yields exactly two
increments (rising edges at frames 1 and 10), not five. -/
theorem truck_event_counter_rising_edges_witness :
    (truckCounterRun exC1Start exC1Frames).total_truck_events = 2 := by
  rw [truck_event_counter_rising_edges exC1Start exC1Frames rfl]
  decide

/-- C2: on any frame processed with detection enabled, the reported
pass/fail status is FAIL whenever the fail timer is inside its window at
evaluation time — even if the pass timer is also inside its window — PASS
is reported exactly when the fail window is not active and the pass window
is, and NONE exactly when neither is active. -/
theorem helmet_fail_precedence (s : HelmetState) (f : FrameInput)
    (h : s.detect_enabled = true) :
    (tsActive ((processFrame s f).1).last_fail_ts f.now FAIL_SEC = true →
      ((processFrame s f).1).status.pass_fail = PassFail.fail) ∧
    (((processFrame s f).1).status.pass_fail = PassFail.pass ↔
      tsActive ((processFrame s f).1).last_fail_ts f.now FAIL_SEC = false ∧
      tsActive ((processFrame s f).1).last_pass_ts f.now PASS_SEC = true) ∧
    (((processFrame s f).1).status.pass_fail = PassFail.nothing ↔
      tsActive ((processFrame s f).1).last_fail_ts f.now FAIL_SEC = false ∧
      tsActive ((processFrame s f).1).last_pass_ts f.now PASS_SEC = false) := by
  rw [processFrame_pass_fail]
  cases hf : tsActive ((processFrame s f).1).last_fail_ts f.now FAIL_SEC <;>
    cases hp : tsActive ((processFrame s f).1).last_pass_ts f.now PASS_SEC <;>
    simp [h, hf, hp]

/-- Camera state for the C2 witness: detection enabled and a pass timer
that will still be inside its window at the next frame. -/
def exC2S : HelmetState :=
  { detect_enabled := true
    snapshot_interval_sec := 30
    send_mode := "auto"
    last_pass_ts := some 99
    last_fail_ts := none
    last_snapshot_ts := 0
    has_frame := true
    last_helmet_count := 0
    last_no_helmet_count := 0
    total_helmet_count := 0
    total_no_helmet_count := 0
    status := ⟨PassFail.nothing, "NO DETECTION", 0, 0, 0, 0⟩ }

/-- The C2 witness frame: a no-helmet box at time 100, so the fail timer
is set to 100 while the pass timer (99) is also inside its window. -/
def exC2F : FrameInput :=
  { ranSchedule := true
    helmetBoxes := 0
    noHelmetBoxes := 1
    personBoxes := 0
    now := 100
    persistOk := true }

/-- Witness for C2: with both windows active at time 100, the reported
status is FAIL. -/
theorem helmet_fail_precedence_witness :
    ((processFrame exC2S exC2F).1).status.pass_fail = PassFail.fail := by
  have hc : (exC2S.detect_enabled && helmetTrigger exC2S exC2F) = true := by decide
  have hlf : ((processFrame exC2S exC2F).1).last_fail_ts = some exC2F.now := by
    rw [processFrame_last_fail_ts, if_pos hc]
  apply (helmet_fail_precedence exC2S exC2F rfl).1
  rw [hlf]
  norm_num [tsActive, FAIL_SEC, exC2F]

/-! Rate-limiter lemmas for the auto-alert dispatch. -/

theorem firesDuring_none_within (fs : List FrameInput) :
    ∀ s' : HelmetState,
      (∀ g ∈ fs, g.now - s'.last_snapshot_ts ≤ (s'.snapshot_interval_sec : ℚ)) →
      firesDuring s' fs = false := by
  induction fs with
  | nil =>
    intro s' _
    rfl
  | cons g fs ih =>
    intro s' h
    have hg := h g (List.mem_cons_self g fs)
    have hnf : snapshotFires s' g = false := by
      unfold snapshotFires
      have hnl : ¬((s'.snapshot_interval_sec : ℚ) < g.now - s'.last_snapshot_ts) :=
        not_lt.mpr hg
      simp [hnl]
    have h2 : (processFrame s' g).2 = none := by
      rw [processFrame_snd]
      simp [hnf]
    simp only [firesDuring, h2, Option.isSome_none, Bool.false_or]
    apply ih
    intro g' hg'
    rw [processFrame_last_snapshot_ts, processFrame_interval]
    simp only [hnf, if_neg (by simp : ¬(false = true))]
    exact h g' (List.mem_cons_of_mem _ hg')

/-- C3: with detection enabled, the auto-alert dispatch fires exactly when
the trigger condition holds and now - last_snapshot_ts is strictly greater
than the snapshot interval; whenever it fires, last_snapshot_ts is set to
now unconditionally — the event records the write result, which may be a
failure, without affecting the timer update — and the requested forwarding
follows the send mode; when it does not fire the timer is untouched; and
after a fire at time now, no frame whose time is within the interval of
now can fire again. -/
theorem alert_dispatch_rate_limit (s : HelmetState) (f : FrameInput)
    (h : s.detect_enabled = true) :
    ((processFrame s f).2.isSome = true ↔
      helmetTrigger s f = true ∧
        (s.snapshot_interval_sec : ℚ) < f.now - s.last_snapshot_ts) ∧
    (∀ e, (processFrame s f).2 = some e →
      ((processFrame s f).1).last_snapshot_ts = f.now ∧
      e.persisted = f.persistOk ∧ e.sendRequested = (s.send_mode == "auto")) ∧
    ((processFrame s f).2 = none →
      ((processFrame s f).1).last_snapshot_ts = s.last_snapshot_ts) ∧
    (∀ fs : List FrameInput, (processFrame s f).2.isSome = true →
      (∀ g ∈ fs, g.now - f.now ≤ (s.snapshot_interval_sec : ℚ)) →
      firesDuring (processFrame s f).1 fs = false) := by
  have hiff : (processFrame s f).2.isSome = true ↔
      helmetTrigger s f = true ∧
        (s.snapshot_interval_sec : ℚ) < f.now - s.last_snapshot_ts := by
    rw [processFrame_snd]
    cases hff : snapshotFires s f
    · have hsf := hff
      rw [snapshotFires, h] at hsf
      simp only [Bool.true_and, Bool.and_eq_false_iff] at hsf
      simp only [Bool.false_eq_true, if_neg (fun hfalse : False => hfalse),
        Option.isSome_none, false_iff, not_and]
      intro ht hlt
      rcases hsf with h1 | h2
      · rw [ht] at h1
        exact absurd h1 (by simp)
      · rw [decide_eq_false_iff_not] at h2
        exact h2 hlt
    · have hsf := hff
      rw [snapshotFires, h] at hsf
      simp only [Bool.true_and, Bool.and_eq_true, decide_eq_true_eq] at hsf
      simp [hsf]
  refine ⟨hiff, ?_, ?_, ?_⟩
  · intro e he
    have hff : snapshotFires s f = true := by
      cases hff : snapshotFires s f
      · rw [processFrame_snd, hff] at he
        exact absurd he (by simp)
      · rfl
    rw [processFrame_snd, hff] at he
    simp only [if_pos rfl] at he
    injection he with he
    rw [processFrame_last_snapshot_ts, hff]
    subst he
    exact ⟨rfl, rfl, rfl⟩
  · intro he
    have hff : snapshotFires s f = false := by
      cases hff : snapshotFires s f
      · rfl
      · rw [processFrame_snd, hff] at he
        exact absurd he (by simp)
    rw [processFrame_last_snapshot_ts, hff]
    rfl
  · intro fs hfire hwin
    have hff : snapshotFires s f = true := by
      cases hff : snapshotFires s f
      · rw [processFrame_snd, hff] at hfire
        exact absurd hfire (by simp)
      · rfl
    apply firesDuring_none_within
    intro g hg
    rw [processFrame_last_snapshot_ts, processFrame_interval, hff]
    simpa using hwin g hg

/-- Camera state for the C3 witness: detection enabled, rate limiter last
fired at time 0 with a 30 second interval. -/
def exC3S : HelmetState :=
  { detect_enabled := true
    snapshot_interval_sec := 30
    send_mode := "auto"
    last_pass_ts := none
    last_fail_ts := none
    last_snapshot_ts := 0
    has_frame := true
    last_helmet_count := 0
    last_no_helmet_count := 0
    total_helmet_count := 0
    total_no_helmet_count := 0
    status := ⟨PassFail.nothing, "NO DETECTION", 0, 0, 0, 0⟩ }

/-- The C3 witness frame: a no-helmet trigger at time 100 whose snapshot
write fails (persistOk = false). -/
def exC3F : FrameInput :=
  { ranSchedule := true
    helmetBoxes := 0
    noHelmetBoxes := 1
    personBoxes := 0
    now := 100
    persistOk := false }

/-- Witness for C3: the dispatch fires at time 100 and advances
last_snapshot_ts to 100 even though the persistence write failed. -/
theorem alert_dispatch_rate_limit_witness :
    ((processFrame exC3S exC3F).1).last_snapshot_ts = exC3F.now := by
  have h1 : (exC3S.detect_enabled && helmetTrigger exC3S exC3F) = true := by decide
  have hfires : snapshotFires exC3S exC3F = true := by
    rw [snapshotFires, h1]
    simp only [Bool.true_and, decide_eq_true_eq]
    norm_num [exC3S, exC3F]
  have h2 : (processFrame exC3S exC3F).2
      = some ⟨exC3F.persistOk, exC3S.send_mode == "auto"⟩ := by
    rw [processFrame_snd, hfires]
    simp
  exact ((alert_dispatch_rate_limit exC3S exC3F rfl).2.1 _ h2).1

/-! Behaviour of the helmet frame loop while detection is disabled. -/

theorem processFrame_disabled (s' : HelmetState) (f : FrameInput)
    (h : s'.detect_enabled = false) :
    ((processFrame s' f).1).detect_enabled = false ∧
    ((processFrame s' f).1).last_pass_ts = s'.last_pass_ts ∧
    ((processFrame s' f).1).last_fail_ts = s'.last_fail_ts ∧
    ((processFrame s' f).1).last_snapshot_ts = s'.last_snapshot_ts ∧
    ((processFrame s' f).1).last_helmet_count = s'.last_helmet_count ∧
    ((processFrame s' f).1).last_no_helmet_count = s'.last_no_helmet_count ∧
    ((processFrame s' f).1).total_helmet_count = s'.total_helmet_count ∧
    ((processFrame s' f).1).total_no_helmet_count = s'.total_no_helmet_count ∧
    ((processFrame s' f).1).status.pass_fail = PassFail.nothing ∧
    ((processFrame s' f).1).status.text = "DETECTION OFF" ∧
    ((processFrame s' f).1).status.helmet_count = s'.last_helmet_count ∧
    ((processFrame s' f).1).status.no_helmet_count = s'.last_no_helmet_count ∧
    (processFrame s' f).2 = none := by
  have hran : detectionRan s' f = false := by
    simp [detectionRan, h]
  have hfires : snapshotFires s' f = false := by
    simp [snapshotFires, h]
  refine ⟨?_, ?_, ?_, ?_, ?_, ?_, ?_, ?_, ?_, ?_, ?_, ?_, ?_⟩
  · rw [processFrame_detect_enabled]
    exact h
  · rw [processFrame_last_pass_ts]
    simp [h]
  · rw [processFrame_last_fail_ts]
    simp [h]
  · rw [processFrame_last_snapshot_ts]
    simp [hfires]
  · rw [(processFrame_status_counts s' f).2.2.1]
    simp [hran]
  · rw [(processFrame_status_counts s' f).2.2.2]
    simp [hran]
  · rw [(processFrame_totals s' f).1]
    simp [hran]
  · rw [(processFrame_totals s' f).2]
    simp [hran]
  · rw [processFrame_pass_fail]
    simp [h]
  · rw [processFrame_text]
    simp [h]
  · rw [(processFrame_status_counts s' f).1]
    simp [hran]
  · rw [(processFrame_status_counts s' f).2.1]
    simp [hran]
  · rw [processFrame_snd]
    simp [hfires]

theorem processFrames_disabled (fs : List FrameInput) :
    ∀ s' : HelmetState, s'.detect_enabled = false →
      (processFrames s' fs).detect_enabled = false ∧
      (processFrames s' fs).last_helmet_count = s'.last_helmet_count ∧
      (processFrames s' fs).last_no_helmet_count = s'.last_no_helmet_count ∧
      (processFrames s' fs).last_pass_ts = s'.last_pass_ts ∧
      (processFrames s' fs).last_fail_ts = s'.last_fail_ts ∧
      (fs ≠ [] →
        (processFrames s' fs).status.pass_fail = PassFail.nothing ∧
        (processFrames s' fs).status.text = "DETECTION OFF" ∧
        (processFrames s' fs).status.helmet_count = s'.last_helmet_count ∧
        (processFrames s' fs).status.no_helmet_count = s'.last_no_helmet_count) := by
  induction fs with
  | nil =>
    intro s' h
    exact ⟨h, rfl, rfl, rfl, rfl, fun hne => absurd rfl hne⟩
  | cons f fs ih =>
    intro s' h
    obtain ⟨hd1, hd2, hd3, hd4, hd5, hd6, hd7, hd8, hd9, hd10, hd11, hd12, hd13⟩ :=
      processFrame_disabled s' f h
    obtain ⟨hi1, hi2, hi3, hi4, hi5, hi6⟩ := ih ((processFrame s' f).1) hd1
    refine ⟨hi1, hi2.trans hd5, hi3.trans hd6, hi4.trans hd2, hi5.trans hd3, ?_⟩
    intro _
    cases fs with
    | nil =>
      exact ⟨hd9, hd10, hd11, hd12⟩
    | cons g gs =>
      have h6 := hi6 (by simp)
      exact ⟨h6.1, h6.2.1, h6.2.2.1.trans hd5, h6.2.2.2.trans hd6⟩

/-- C7 (amended): toggling detection off immediately forces the OFF
administrative status (text "DETECTION OFF", pass/fail "none"), clears
both timers regardless of any active windows, and zeroes the displayed
per-frame counts at that moment; on every subsequently processed frame
while detection stays disabled the status stays OFF and the timers stay
cleared, but the displayed counts revert to the counts held over from the
last frame on which detection ran — they are not kept at zero. -/
theorem toggle_off_forces_off (s : HelmetState) (h : s.detect_enabled = true) :
    ((toggleDetection s).detect_enabled = false ∧
     (toggleDetection s).last_pass_ts = none ∧
     (toggleDetection s).last_fail_ts = none ∧
     (toggleDetection s).status.pass_fail = PassFail.nothing ∧
     (toggleDetection s).status.text = "DETECTION OFF" ∧
     (toggleDetection s).status.helmet_count = 0 ∧
     (toggleDetection s).status.no_helmet_count = 0) ∧
    (∀ fs : List FrameInput, fs ≠ [] →
      (processFrames (toggleDetection s) fs).status.pass_fail = PassFail.nothing ∧
      (processFrames (toggleDetection s) fs).status.text = "DETECTION OFF" ∧
      (processFrames (toggleDetection s) fs).last_pass_ts = none ∧
      (processFrames (toggleDetection s) fs).last_fail_ts = none ∧
      (processFrames (toggleDetection s) fs).status.helmet_count = s.last_helmet_count ∧
      (processFrames (toggleDetection s) fs).status.no_helmet_count
        = s.last_no_helmet_count) := by
  have hd : (toggleDetection s).detect_enabled = false := by
    simp [toggleDetection, h]
  have hlp : (toggleDetection s).last_pass_ts = none := by
    simp [toggleDetection, h]
  have hlf : (toggleDetection s).last_fail_ts = none := by
    simp [toggleDetection, h]
  have hlh : (toggleDetection s).last_helmet_count = s.last_helmet_count := by
    simp [toggleDetection, h]
  have hlnh : (toggleDetection s).last_no_helmet_count = s.last_no_helmet_count := by
    simp [toggleDetection, h]
  constructor
  · refine ⟨hd, hlp, hlf, ?_, ?_, ?_, ?_⟩ <;> simp [toggleDetection, h]
  · intro fs hne
    obtain ⟨hi1, hi2, hi3, hi4, hi5, hi6⟩ := processFrames_disabled fs (toggleDetection s) hd
    have h6 := hi6 hne
    exact ⟨h6.1, h6.2.1, hi4.trans hlp, hi5.trans hlf,
      h6.2.2.1.trans hlh, h6.2.2.2.trans hlnh⟩

/-- Camera state for C7: detection enabled with nothing recorded yet. -/
def exC7S : HelmetState :=
  { detect_enabled := true
    snapshot_interval_sec := 30
    send_mode := "auto"
    last_pass_ts := none
    last_fail_ts := none
    last_snapshot_ts := 0
    has_frame := true
    last_helmet_count := 0
    last_no_helmet_count := 0
    total_helmet_count := 0
    total_no_helmet_count := 0
    status := ⟨PassFail.nothing, "NO DETECTION", 0, 0, 0, 0⟩ }

/-- A frame with two helmet boxes at time 1, detection scheduled. -/
def exC7Fa : FrameInput :=
  { ranSchedule := true
    helmetBoxes := 2
    noHelmetBoxes := 0
    personBoxes := 0
    now := 1
    persistOk := true }

/-- A later frame at time 2 (its contents are irrelevant: detection is
off). -/
def exC7Fb : FrameInput :=
  { ranSchedule := true
    helmetBoxes := 0
    noHelmetBoxes := 0
    personBoxes := 0
    now := 2
    persistOk := true }

/-- The camera after one detection frame that counted two helmets. -/
def exC7Mid : HelmetState := (processFrame exC7S exC7Fa).1

/-- Counterexample for C7 as stated: after a frame counts two helmets,
toggling detection off zeroes the displayed count, but the very next
processed frame — with detection still disabled — reports the held-over
count 2, not 0. -/
theorem toggle_off_zero_counts_counterexample :
    (toggleDetection exC7Mid).detect_enabled = false ∧
    (toggleDetection exC7Mid).status.helmet_count = 0 ∧
    ((processFrame (toggleDetection exC7Mid) exC7Fb).1).detect_enabled = false ∧
    ((processFrame (toggleDetection exC7Mid) exC7Fb).1).status.helmet_count = 2 := by
  refine ⟨rfl, rfl, rfl, rfl⟩

/-- Witness for C7 (amended) at the concrete run of the counterexample:
toggling off zeroes the displayed count and forces OFF, and the next
disabled frame shows the held-over count of the last detection frame. -/
theorem toggle_off_forces_off_witness :
    (toggleDetection exC7Mid).status.helmet_count = 0 ∧
    (toggleDetection exC7Mid).status.text = "DETECTION OFF" ∧
    (processFrames (toggleDetection exC7Mid) [exC7Fb]).status.text = "DETECTION OFF" ∧
    (processFrames (toggleDetection exC7Mid) [exC7Fb]).status.helmet_count
      = exC7Mid.last_helmet_count := by
  have h := toggle_off_forces_off exC7Mid rfl
  have h2 := h.2 [exC7Fb] (by simp)
  exact ⟨h.1.2.2.2.2.2.1, h.1.2.2.2.2.1, h2.2.1, h2.2.2.2.2.1⟩
